import Mathlib

set_option allowUnsafeReducibility true

attribute [local semireducible] Rat.add Rat.sub Rat.mul Rat.div Rat.inv

/-!
Verification of the intraday movement scanner in `src/app.py`.

The scanner core is `get_stocks_with_movement` (src/app.py lines 37-84): it
takes a batch of ticker symbols, obtains an OHLC price table from the
provider (`yf.download`), computes the per-cell movement percentage
`(high - low) / low * 100`, masks it to the `[min_pct, max_pct]` band, and
emits one record per symbol whose filtered column has a last entry.  The
caller (src/app.py lines 117-127) runs this per batch, keeps non-empty
batch results, concatenates them and sorts descending by movement.

The embedding models the pandas float pipeline exactly: a cell is a real
number (here a rational), NaN (missing data, which is how pandas encodes
absent prices), or a signed infinity (produced by division by zero).
The provider response is an opaque input: either a price table (rows of
bars, one column per symbol) or a failure, mirroring the try/except in the
source.
-/

/-- A pandas/NumPy float cell as it flows through the movement pipeline:
a rational number, NaN, or a signed infinity. -/
inductive PFloat where
  | nan : PFloat
  | inf : PFloat
  | ninf : PFloat
  | num : ℚ → PFloat
deriving DecidableEq, Repr

/-- `True` exactly for the NaN cell (pandas `isna`). -/
def PFloat.isNaN : PFloat → Bool
  | .nan => true
  | _ => false

/-- Elementwise `>=` against a scalar, IEEE style: NaN compares false,
`+inf >= q` is true, `-inf >= q` is false (pandas `movements >= min_pct`). -/
def PFloat.geB : PFloat → ℚ → Bool
  | .nan, _ => false
  | .inf, _ => true
  | .ninf, _ => false
  | .num a, q => decide (q ≤ a)

/-- Elementwise `<=` against a scalar, IEEE style (pandas
`movements <= max_pct`). -/
def PFloat.leB : PFloat → ℚ → Bool
  | .nan, _ => false
  | .inf, _ => false
  | .ninf, _ => true
  | .num a, q => decide (a ≤ q)

/-- Round half to even at integer precision, as Python `round` does. -/
def roundHalfEven (x : ℚ) : ℤ :=
  let f := ⌊x⌋
  if x - f < 1 / 2 then f
  else if 1 / 2 < x - f then f + 1
  else if f % 2 = 0 then f else f + 1

/-- Python `round(x, 2)`. -/
def round2Q (x : ℚ) : ℚ := (roundHalfEven (x * 100) : ℚ) / 100

/-- Python `round(pct, 2)` on a float cell: NaN and infinities round to
themselves. -/
def PFloat.round2 : PFloat → PFloat
  | .num q => .num (round2Q q)
  | x => x

/-- One OHLC row for one ticker (`Open`, `High`, `Low`, `Close` columns of
the downloaded frame); `none` is a missing (NaN) price. -/
structure Bar where
  Open : Option ℚ
  High : Option ℚ
  Low : Option ℚ
  Close : Option ℚ
deriving DecidableEq, Repr

/-- A bar with every field missing; also the out-of-range default when a
row is shorter than the symbol list (never hit on well-formed tables). -/
def defaultBar : Bar := ⟨none, none, none, none⟩

/-- The provider response table: one column per symbol, one row per time
index entry, every row aligned with `symbols`. -/
structure PriceTable where
  symbols : List String
  rows : List (List Bar)
deriving DecidableEq, Repr

/-- The column of bars for the symbol at index `j`. -/
def PriceTable.col (t : PriceTable) (j : ℕ) : List Bar :=
  t.rows.map (fun r => r.getD j defaultBar)

/-- One output row of the scanner (src/app.py lines 72-80). -/
structure MovementRecord where
  Symbol : String
  Movement : PFloat
  Open : Option ℚ
  High : Option ℚ
  Low : Option ℚ
  Close : Option ℚ
  Sector : String
deriving DecidableEq, Repr

/-- One cell of `(highs - lows) / lows * 100` (src/app.py line 61) with
NumPy float semantics: a missing operand gives NaN, a zero `low` gives a
signed infinity (or NaN for `0 / 0`). -/
def movementCell (high low : Option ℚ) : PFloat :=
  match high, low with
  | some h, some l =>
      if l = 0 then
        if 0 < h - l then .inf
        else if h - l < 0 then .ninf
        else .nan
      else .num ((h - l) / l * 100)
  | _, _ => .nan

/-- One cell of the band mask
`movements[(movements >= min_pct) & (movements <= max_pct)]`
(src/app.py line 62): entries failing the mask become NaN (`DataFrame.where`). -/
def maskCell (m : PFloat) (min_pct max_pct : ℚ) : PFloat :=
  if m.geB min_pct && m.leB max_pct then m else .nan

/-- `movements = ((highs - lows) / lows * 100).dropna(how='all')`
(src/app.py line 61): rows whose every entry is NaN are dropped. -/
def movements (t : PriceTable) : List (List PFloat) :=
  (t.rows.map (fun r => r.map (fun b => movementCell b.High b.Low))).filter
    (fun r => !(r.all PFloat.isNaN))

/-- `filtered = movements[(movements >= min_pct) & (movements <= max_pct)].dropna(how='all')`
(src/app.py line 62). -/
def filteredRows (t : PriceTable) (min_pct max_pct : ℚ) : List (List PFloat) :=
  ((movements t).map (fun r => r.map (fun m => maskCell m min_pct max_pct))).filter
    (fun r => !(r.all PFloat.isNaN))

/-- The body of `get_stocks_with_movement` after a successful download
(src/app.py lines 46-81): the early return on an empty frame, then one
loop iteration per column of `filtered`; `pct` is
`filtered[symbol].iloc[-1] if not filtered[symbol].empty else None`, the
`pct is not None` guard, the constant `'Unknown'` sector, the truthiness
test `if sector_filter and sector != sector_filter: continue`, and the
record built from `round(pct, 2)`, `opens[symbol].iloc[0]` and the
`iloc[-1]` of the high/low/close columns of the unfiltered frame. -/
def scanTable (data : PriceTable) (min_pct max_pct : ℚ)
    (sector_filter : Option String) : List MovementRecord :=
  if data.rows.isEmpty || data.symbols.isEmpty then []
  else
    (List.range data.symbols.length).filterMap (fun j =>
      match ((filteredRows data min_pct max_pct).map
          (fun r => r.getD j PFloat.nan)).getLast? with
      | none => none
      | some pct =>
          if (match sector_filter with
              | none => false
              | some sf => !sf.isEmpty && ("Unknown" != sf)) then none
          else
            some {
              Symbol := data.symbols.getD j ""
              Movement := pct.round2
              Open := ((data.rows.headD []).getD j defaultBar).Open
              High := ((data.rows.getLastD []).getD j defaultBar).High
              Low := ((data.rows.getLastD []).getD j defaultBar).Low
              Close := ((data.rows.getLastD []).getD j defaultBar).Close
              Sector := "Unknown" })

/-- `get_stocks_with_movement` (src/app.py lines 37-84) with the provider
response as an explicit input: the surrounding try/except turns any
provider failure into an empty result. -/
def get_stocks_with_movement (resp : Except String PriceTable)
    (min_pct max_pct : ℚ) (sector_filter : Option String) :
    List MovementRecord :=
  match resp with
  | .error _ => []
  | .ok data => scanTable data min_pct max_pct sector_filter

/-- `a` precedes (or ties) `b` when sorting by `'Movement (%)'` descending
with NaN placed last (`sort_values(..., ascending=False)`,
src/app.py line 127). -/
def movBefore (a b : MovementRecord) : Bool :=
  match a.Movement, b.Movement with
  | .nan, .nan => true
  | _, .nan => true
  | .nan, _ => false
  | .inf, _ => true
  | _, .inf => false
  | .num x, .num y => decide (y ≤ x)
  | .ninf, .ninf => true
  | .ninf, _ => false
  | _, .ninf => true

/-- Stable insertion into a list already sorted by `movBefore`. -/
def insertRec (r : MovementRecord) : List MovementRecord → List MovementRecord
  | [] => [r]
  | x :: xs => if movBefore r x then r :: x :: xs else x :: insertRec r xs

/-- Stable sort descending by movement percentage (the caller's
`sort_values('Movement (%)', ascending=False)`, src/app.py line 127). -/
def sortByMovementDesc (l : List MovementRecord) : List MovementRecord :=
  l.foldr insertRec []

/-- The caller's batch loop (src/app.py lines 119-127): one provider
response per batch, per-batch scan, empty batch results skipped
(`if not df_batch.empty`), concatenation, final descending sort. -/
def scanAll (resps : List (Except String PriceTable))
    (min_pct max_pct : ℚ) (sector_filter : Option String) :
    List MovementRecord :=
  sortByMovementDesc
    (((resps.map (fun r => get_stocks_with_movement r min_pct max_pct sector_filter)).filter
      (fun l => !l.isEmpty)).flatten)

/-- The default-date rule (src/app.py lines 38-43): given the current day
number and the current clock time in the fixed Asia/Kolkata timezone,
pick the previous day if the market is closed, else today. -/
def defaultSelectedDate (today : ℤ) (h m : ℕ) : ℤ :=
  if h < 9 ∨ (h = 9 ∧ m < 15) ∨ 15 < h ∨ (h = 15 ∧ 30 < m) then today - 1
  else today

/-- Spec wording: the current time lies within the trading session window
09:15 to 15:30, both ends inclusive. -/
def inSession (h m : ℕ) : Bool :=
  decide ((9 < h ∨ (h = 9 ∧ 15 ≤ m)) ∧ (h < 15 ∨ (h = 15 ∧ m ≤ 30)))

/-- Spec wording: a movement value lies within the inclusive band. -/
def withinBand (m : PFloat) (min_pct max_pct : ℚ) : Bool :=
  m.geB min_pct && m.leB max_pct

/-- Spec wording: a bar is available when at least one of its prices is
present. -/
def barPresent (b : Bar) : Bool :=
  b.Open.isSome || b.High.isSome || b.Low.isSome || b.Close.isSome

/-- Spec wording: the first available (non-absent) bar of a column. -/
def firstAvailableBar (bars : List Bar) : Option Bar :=
  (bars.filter barPresent).head?

/-- Spec wording: the last available (non-absent) bar of a column. -/
def lastAvailableBar (bars : List Bar) : Option Bar :=
  (bars.filter barPresent).getLast?

/-- Two tickers on one trading day: `A.NS` moves 30% (above the band) and
`B.NS` moves 10% (inside the band `[3, 20]`). -/
def tableAB : PriceTable :=
  ⟨["A.NS", "B.NS"],
   [[⟨some 100, some 130, some 100, some 120⟩,
     ⟨some 100, some 110, some 100, some 105⟩]]⟩

/-- Two tickers on one trading day: `A.NS` has `low = 0` and `B.NS` moves
10% (inside the band `[3, 20]`). -/
def tableLowZero : PriceTable :=
  ⟨["A.NS", "B.NS"],
   [[⟨some 5, some 10, some 0, some 7⟩,
     ⟨some 100, some 110, some 100, some 105⟩]]⟩

/-- Four tickers on one trading day: `A.NS` 30%, `B.NS` 10%, `C.NS` 40%,
`D.NS` 50%; only `B.NS` is inside the band `[3, 20]`. -/
def tableABCD : PriceTable :=
  ⟨["A.NS", "B.NS", "C.NS", "D.NS"],
   [[⟨some 100, some 130, some 100, some 120⟩,
     ⟨some 100, some 110, some 100, some 105⟩,
     ⟨some 100, some 140, some 100, some 120⟩,
     ⟨some 100, some 150, some 100, some 130⟩]]⟩

/-- The first contiguous batch of `tableABCD`: columns `A.NS`, `B.NS`. -/
def tableABCDfst : PriceTable :=
  ⟨["A.NS", "B.NS"],
   [[⟨some 100, some 130, some 100, some 120⟩,
     ⟨some 100, some 110, some 100, some 105⟩]]⟩

/-- The second contiguous batch of `tableABCD`: columns `C.NS`, `D.NS`. -/
def tableABCDsnd : PriceTable :=
  ⟨["C.NS", "D.NS"],
   [[⟨some 100, some 140, some 100, some 120⟩,
     ⟨some 100, some 150, some 100, some 130⟩]]⟩

/-- One ticker with two intraday rows: the first bar is complete and moves
10%; the second row is entirely absent (no trade in the last interval). -/
def tableLastNaN : PriceTable :=
  ⟨["A.NS"],
   [[⟨some 100, some 110, some 100, some 105⟩],
    [⟨none, none, none, none⟩]]⟩

/-- C1: the claim says every emitted movement percentage for a ticker with
`low > 0` and `high` present equals `(high - low) / low * 100` rounded to
2 decimals.  On `tableAB`, ticker `A.NS` has `low = 100 > 0` and
`high = 130`, so the formula gives `30.00`; yet the scanner emits a record
for `A.NS` whose movement is NaN, because the band mask turns the 30%
entry into NaN, the row survives `dropna(how='all')` thanks to `B.NS`, and
the guard `pct is not None` does not exclude NaN. -/
theorem C1_eval :
    get_stocks_with_movement (.ok tableAB) 3 20 none =
      [⟨"A.NS", .nan, some 100, some 130, some 100, some 120, "Unknown"⟩,
       ⟨"B.NS", .num 10, some 100, some 110, some 100, some 105, "Unknown"⟩] ∧
    (movementCell (some 130) (some 100)).round2 = .num 30 := by
  constructor
  · decide
  · decide

/-- C2: the claim says every record in the output has its movement
percentage inside `[min_pct, max_pct]`.  On `tableAB` with band `[3, 20]`
the scanner emits a record (for `A.NS`) whose movement is NaN, which
satisfies neither inclusive bound. -/
theorem C2_eval :
    ∃ r ∈ get_stocks_with_movement (.ok tableAB) 3 20 none,
      withinBand r.Movement 3 20 = false := by
  decide

/-- C3: the claim says a ticker whose bar has `low == 0` never appears in
the output.  On `tableLowZero`, ticker `A.NS` has `low = 0`; its movement
cell is `+inf` (division by zero), the band mask turns it into NaN, the
row survives `dropna(how='all')` thanks to `B.NS`, and the `pct is not
None` guard lets the NaN through, so `A.NS` is emitted. -/
theorem C3_eval :
    (tableLowZero.rows.headD []).getD 0 defaultBar = ⟨some 5, some 10, some 0, some 7⟩ ∧
    ∃ r ∈ get_stocks_with_movement (.ok tableLowZero) 3 20 none,
      r.Symbol = "A.NS" ∧ r.Movement = .nan := by
  constructor
  · decide
  · decide

/-- C4: the claim says scanning contiguous batches, concatenating the
non-empty batch results and sorting gives the same records in the same
order as scanning the whole set at once.  `tableABCDfst` and
`tableABCDsnd` partition the columns of `tableABCD`; the whole-set scan
emits 4 records (the NaN leak keeps `A.NS`, `C.NS`, `D.NS` alive because
`B.NS` passes), while the batched scan emits only 2 (in the second batch
every entry is masked to NaN, so its single row is dropped entirely). -/
theorem C4_eval :
    tableABCD.symbols = tableABCDfst.symbols ++ tableABCDsnd.symbols ∧
    (scanAll [.ok tableABCD] 3 20 none).length = 4 ∧
    (scanAll [.ok tableABCDfst, .ok tableABCDsnd] 3 20 none).length = 2 ∧
    scanAll [.ok tableABCD] 3 20 none ≠
      scanAll [.ok tableABCDfst, .ok tableABCDsnd] 3 20 none := by
  refine ⟨by decide, by decide, by decide, by decide⟩

/-- C5: a provider failure for a batch yields the empty result for that
batch, and the multi-batch scan over any surrounding batches produces
exactly what it produces without the failing batch: the scan continues
rather than aborting. -/
theorem C5_provider_failure (pre post : List (Except String PriceTable))
    (msg : String) (min_pct max_pct : ℚ) (sf : Option String) :
    get_stocks_with_movement (.error msg) min_pct max_pct sf = [] ∧
    scanAll (pre ++ .error msg :: post) min_pct max_pct sf =
      scanAll (pre ++ post) min_pct max_pct sf := by
  refine ⟨rfl, ?_⟩
  unfold scanAll
  congr 1
  simp [List.filter_append, get_stocks_with_movement]

/-- C7: with no date supplied, the scan date is today exactly when the
clock time (in the fixed Asia/Kolkata timezone) lies inside the trading
session window 09:15 to 15:30 inclusive, and the previous calendar day
otherwise. -/
theorem C7_default_date (today : ℤ) (h m : ℕ) :
    defaultSelectedDate today h m = if inSession h m then today else today - 1 := by
  unfold defaultSelectedDate inSession
  by_cases hc : h < 9 ∨ (h = 9 ∧ m < 15) ∨ 15 < h ∨ (h = 15 ∧ 30 < m)
  · rw [if_pos hc]
    have hs : ¬ ((9 < h ∨ (h = 9 ∧ 15 ≤ m)) ∧ (h < 15 ∨ (h = 15 ∧ m ≤ 30))) := by omega
    simp [hs]
  · rw [if_neg hc]
    have hs : (9 < h ∨ (h = 9 ∧ 15 ≤ m)) ∧ (h < 15 ∨ (h = 15 ∧ m ≤ 30)) := by omega
    simp [hs]

/-- C9: a scan whose provider table has no tickers, or no rows, returns
the empty sequence of records (the `data.empty` early return). -/
theorem C9_empty_input (min_pct max_pct : ℚ) (sf : Option String)
    (symbols : List String) (rows : List (List Bar)) :
    get_stocks_with_movement (.ok ⟨[], rows⟩) min_pct max_pct sf = [] ∧
    get_stocks_with_movement (.ok ⟨symbols, []⟩) min_pct max_pct sf = [] := by
  constructor <;> simp [get_stocks_with_movement, scanTable]

/-- C10: the scanner is deterministic: two runs with the same provider
response, band parameters and sector filter return the same sequence of
records (the embedding is a pure function of exactly these inputs). -/
theorem C10_deterministic (r1 r2 : Except String PriceTable)
    (lo1 lo2 hi1 hi2 : ℚ) (sf1 sf2 : Option String)
    (hr : r1 = r2) (hlo : lo1 = lo2) (hhi : hi1 = hi2) (hsf : sf1 = sf2) :
    get_stocks_with_movement r1 lo1 hi1 sf1 =
      get_stocks_with_movement r2 lo2 hi2 sf2 := by
  subst hr hlo hhi hsf
  rfl

/-- Witness for C10 at a concrete run. -/
theorem C10_deterministic_witness :
    get_stocks_with_movement (.ok tableAB) 3 20 none =
      get_stocks_with_movement (.ok tableAB) 3 20 none :=
  C10_deterministic (.ok tableAB) (.ok tableAB) 3 3 20 20 none none
    rfl rfl rfl rfl

/-- C6: the claim says High/Low/Close come from the last available
(non-absent) bar.  On `tableLastNaN` the last available bar is the first
row, whose high is 110; yet the emitted record takes `iloc[-1]` of the
unfiltered columns, i.e. the final, entirely absent row, so its High (and
Low, Close) is missing. -/
theorem C6_cex :
    (get_stocks_with_movement (.ok tableLastNaN) 3 20 none).map MovementRecord.High =
      [none] ∧
    (lastAvailableBar (tableLastNaN.col 0)).map Bar.High = some (some 110) := by
  constructor
  · decide
  · decide

/-- C6 (amended): every emitted record takes its Open from the first row
of the provider table and its High/Low/Close from the last row, whether or
not those values are present; for a single-row table with a complete bar
these are that bar's values. -/
theorem C6_first_last_row (t : PriceTable) (min_pct max_pct : ℚ)
    (sf : Option String) (r : MovementRecord)
    (hr : r ∈ get_stocks_with_movement (.ok t) min_pct max_pct sf) :
    ∃ j, j < t.symbols.length ∧
      r.Symbol = t.symbols.getD j "" ∧
      r.Open = ((t.rows.headD []).getD j defaultBar).Open ∧
      r.High = ((t.rows.getLastD []).getD j defaultBar).High ∧
      r.Low = ((t.rows.getLastD []).getD j defaultBar).Low ∧
      r.Close = ((t.rows.getLastD []).getD j defaultBar).Close := by
  have hr' : r ∈ scanTable t min_pct max_pct sf := hr
  unfold scanTable at hr'
  split at hr'
  · simp at hr'
  · rw [List.mem_filterMap] at hr'
    obtain ⟨j, hj, hfj⟩ := hr'
    rw [List.mem_range] at hj
    refine ⟨j, hj, ?_⟩
    split at hfj
    · exact absurd hfj (by simp)
    · split at hfj
      · exact absurd hfj (by simp)
      · obtain rfl := Option.some.inj hfj
        exact ⟨rfl, rfl, rfl, rfl, rfl⟩

/-- Witness for the amended C6 at the concrete two-row table. -/
theorem C6_first_last_row_witness :
    ∃ j, j < tableLastNaN.symbols.length ∧
      MovementRecord.Symbol
          ⟨"A.NS", .num 10, some 100, none, none, none, "Unknown"⟩ =
        tableLastNaN.symbols.getD j "" ∧
      MovementRecord.Open
          ⟨"A.NS", .num 10, some 100, none, none, none, "Unknown"⟩ =
        ((tableLastNaN.rows.headD []).getD j defaultBar).Open ∧
      MovementRecord.High
          ⟨"A.NS", .num 10, some 100, none, none, none, "Unknown"⟩ =
        ((tableLastNaN.rows.getLastD []).getD j defaultBar).High ∧
      MovementRecord.Low
          ⟨"A.NS", .num 10, some 100, none, none, none, "Unknown"⟩ =
        ((tableLastNaN.rows.getLastD []).getD j defaultBar).Low ∧
      MovementRecord.Close
          ⟨"A.NS", .num 10, some 100, none, none, none, "Unknown"⟩ =
        ((tableLastNaN.rows.getLastD []).getD j defaultBar).Close :=
  C6_first_last_row tableLastNaN 3 20 none
    ⟨"A.NS", .num 10, some 100, none, none, none, "Unknown"⟩ (by decide)

/-- C8: the claim says applying a sector filter removes no tickers.  On
`tableAB` the unfiltered scan emits 2 records, but the scan with sector
filter `"IT"` emits none: every record's sector is the placeholder
`'Unknown'`, so `sector != sector_filter` skips every ticker. -/
theorem C8_cex :
    get_stocks_with_movement (.ok tableAB) 3 20 (some "IT") = [] ∧
    (get_stocks_with_movement (.ok tableAB) 3 20 none).length = 2 := by
  constructor
  · decide
  · decide

/-- C8 (amended): with no sector lookup, every emitted record's Sector is
the constant placeholder `'Unknown'`; supplying any non-empty sector
filter other than the placeholder removes every ticker, while a filter
equal to the placeholder is a pass-through identical to no filter. -/
theorem C8_sector_filter (t : PriceTable) (min_pct max_pct : ℚ) (sf : String)
    (hsf1 : sf ≠ "") (hsf2 : sf ≠ "Unknown") :
    (∀ r ∈ get_stocks_with_movement (.ok t) min_pct max_pct none,
      r.Sector = "Unknown") ∧
    get_stocks_with_movement (.ok t) min_pct max_pct (some sf) = [] ∧
    get_stocks_with_movement (.ok t) min_pct max_pct (some "Unknown") =
      get_stocks_with_movement (.ok t) min_pct max_pct none := by
  have hempty : sf.isEmpty = false := by
    cases h : sf.isEmpty
    · rfl
    · exact absurd ((String.isEmpty_iff sf).mp h) hsf1
  have hne : ("Unknown" != sf) = true := by
    rw [bne_iff_ne]
    exact fun h => hsf2 h.symm
  refine ⟨?_, ?_, ?_⟩
  · intro r hr
    have hr' : r ∈ scanTable t min_pct max_pct none := hr
    unfold scanTable at hr'
    split at hr'
    · simp at hr'
    · rw [List.mem_filterMap] at hr'
      obtain ⟨j, hj, hfj⟩ := hr'
      split at hfj
      · exact absurd hfj (by simp)
      · split at hfj
        · exact absurd hfj (by simp)
        · obtain rfl := Option.some.inj hfj
          rfl
  · show scanTable t min_pct max_pct (some sf) = []
    unfold scanTable
    split
    · rfl
    · rw [List.filterMap_eq_nil_iff]
      intro j hj
      split
      · rfl
      · simp [hempty, hne]
  · show scanTable t min_pct max_pct (some "Unknown") =
      scanTable t min_pct max_pct none
    unfold scanTable
    simp

/-- Witness for the amended C8 at the concrete two-ticker table with
sector filter `"IT"`. -/
theorem C8_sector_filter_witness :
    (∀ r ∈ get_stocks_with_movement (.ok tableAB) 3 20 none,
      r.Sector = "Unknown") ∧
    get_stocks_with_movement (.ok tableAB) 3 20 (some "IT") = [] ∧
    get_stocks_with_movement (.ok tableAB) 3 20 (some "Unknown") =
      get_stocks_with_movement (.ok tableAB) 3 20 none :=
  C8_sector_filter tableAB 3 20 "IT" (by decide) (by decide)
